import Mathlib

set_option maxRecDepth 8192

/-!
Shallow embedding of `plugins/bap/utils/run.py` from bap-ida-python.

The file models the two components of the script:
* the configuration resolver `check_and_configure_bap` (inner helpers
  `config_path` and `config_bap_api`), and
* the run orchestrator `run_bap_with`,
together with the shell command strings the orchestrator builds via
Python `str.format` on its template literals.

Host facilities (IDA dialogs, symbol dumping, `idc.Exec`, temp files) are
modelled as an environment of oracle inputs plus an explicit effect trace.
-/

namespace BapIda

/-! ### Executable models of the Python `str` methods used by the source -/

/-- Python's `str.strip()` whitespace set. -/
def pyspace (c : Char) : Bool :=
  [' ', '\t', '\n', '\r', '\x0b', '\x0c'].contains c

/-- Python `s.strip()`. -/
def pystrip (s : String) : String :=
  String.mk (((s.data.dropWhile pyspace).reverse.dropWhile pyspace).reverse)

/-- Python `s.endswith(t)`. -/
def endswith (s t : String) : Bool :=
  t.data.isSuffixOf s.data

/-- Python `s.lower()`. -/
def pylower (s : String) : String :=
  String.mk (s.data.map Char.toLower)

/-- Python `s.split('--')`: split on non-overlapping occurrences of `--`,
left to right. The accumulator holds the current piece reversed. -/
def splitDashDash : List Char → List Char → List (List Char)
  | [], acc => [acc.reverse]
  | '-' :: '-' :: rest, acc => acc.reverse :: splitDashDash rest []
  | c :: rest, acc => splitDashDash rest (c :: acc)

/-- Python `'sep'.join(pieces)`. -/
def pyjoin (sep : String) : List String → String
  | [] => ""
  | [x] => x
  | x :: xs => x ++ sep ++ pyjoin sep xs

/-- Modelled from the spec: the configuration storage module
`bap.utils.config` is not under `src/`; per the spec (§3, §6) it is a
persisted mapping from (section, key) to string value, with
`get(key, section) -> value or None` and `set(key, value, section)`.
The default (unnamed) section is represented by `none`. -/
def Config : Type := List ((Option String × String) × String)

/-- Modelled from the spec: `config.get` — first (section, key) match, else `none`. -/
def Config.get : Config → Option String → String → Option String
  | [], _, _ => none
  | (sk, v) :: rest, sect, key =>
    if sk = (sect, key) then some v else Config.get rest sect key

/-- Modelled from the spec: `config.set` — record (section, key) ↦ value. -/
def Config.set (cfg : Config) (sect : Option String) (key v : String) : Config :=
  ((sect, key), v) :: cfg

/-- Outcome of one `subprocess.check_output` probe:
successful stdout, `OSError` (tool missing), or `CalledProcessError`
(tool ran, nonzero exit). -/
inductive ProbeResult
  | ok (out : String)
  | osError
  | calledProcessError
  deriving DecidableEq

/-- Observable resolver actions: which discovery probes were invoked. -/
inductive ResolverEffect
  | probeWhich
  | probeOpam
  deriving DecidableEq

/-- `os.path.join a "bap"` for POSIX paths (second component relative). -/
def ospath_join (a b : String) : String :=
  if a = "" then b else if endswith a "/" then a ++ b else a ++ "/" ++ b

/-- The try/except ladder in `config_path` computing `default_bap_path`:
`which bap` first (both `OSError` and `CalledProcessError` caught), then
`opam config var bap:bin` joined with `"bap"` (only `OSError` caught, so a
`CalledProcessError` from opam propagates, modelled as `.error ()`).
Returns the probes invoked and the resulting raw default. -/
def discover_default (which opam : ProbeResult) :
    List ResolverEffect × Except Unit String :=
  match which with
  | .ok out => ([.probeWhich], .ok (pystrip out))
  | _ =>
    match opam with
    | .ok out => ([.probeWhich, .probeOpam], .ok (ospath_join (pystrip out) "bap"))
    | .osError => ([.probeWhich, .probeOpam], .ok "")
    | .calledProcessError => ([.probeWhich, .probeOpam], .error ())

/-- The default path passed to `idaapi.askfile_c`: the discovered value,
blanked unless it ends with `"bap"`
(`if not default_bap_path.endswith('bap'): default_bap_path = ''`). -/
def suggested_default (which opam : ProbeResult) : Except Unit String :=
  match (discover_default which opam).2 with
  | .error e => .error e
  | .ok d => .ok (if endswith d "bap" then d else "")

/-- One scripted user response: an `askfile_c` answer (`none` = cancelled)
or a yes/no answer to a `confirm` prompt. -/
inductive Dialog
  | file (r : Option String)
  | yesno (b : Bool)
  deriving DecidableEq

/-- The `while True` prompt loop of `config_path`, driven by a script of
user responses. Result: `none` = the script ran out (the real loop would
still be blocked on the user); `some none` = the user declined to set a
path (cancelled the file dialog and confirmed); `some (some p)` = the loop
broke with accepted path `p`.

Mirrors the source: cancel → confirm-decline (yes returns, no re-asks);
a path not ending in `"bap"` → confirm (no re-asks); a path that is not a
file per `os.path.isfile` → confirm (no re-asks); otherwise break. -/
def ask_loop (isfile : String → Bool) : List Dialog → Option (Option String)
  | [] => none
  | .yesno _ :: _ => none
  | .file none :: rest =>
    match rest with
    | .yesno b :: rest2 => if b then some none else ask_loop isfile rest2
    | _ => none
  | .file (some p) :: rest =>
    if endswith p "bap" then
      if isfile p then some (some p)
      else
        match rest with
        | .yesno c :: rest2 => if c then some (some p) else ask_loop isfile rest2
        | _ => none
    else
      match rest with
      | .yesno c :: rest2 =>
        if c then
          if isfile p then some (some p)
          else
            match rest2 with
            | .yesno c2 :: rest3 => if c2 then some (some p) else ask_loop isfile rest3
            | _ => none
        else ask_loop isfile rest2
      | _ => none

/-- Environment of the configuration resolver: probe outcomes, the
`os.path.isfile` oracle, and the scripted user responses. -/
structure ResolverIn where
  which : ProbeResult
  opam : ProbeResult
  isfile : String → Bool
  dialogs : List Dialog

/-- Inner helper `config_path` of `check_and_configure_bap`.
Returns (probe effects, result); `.error ()` models the uncaught
`CalledProcessError` escaping, `.ok none` models the loop still waiting on
the user, `.ok (some cfg')` a normal return with updated configuration. -/
def config_path (cfg : Config) (env : ResolverIn) :
    List ResolverEffect × Except Unit (Option Config) :=
  match Config.get cfg none "bap_executable_path" with
  | some _ => ([], .ok (some cfg))
  | none =>
    let eff := (discover_default env.which env.opam).1
    match suggested_default env.which env.opam with
    | .error e => (eff, .error e)
    | .ok _default_bap_path =>
      match ask_loop env.isfile env.dialogs with
      | none => (eff, .ok none)
      | some none => (eff, .ok (some cfg))
      | some (some p) =>
        (eff, .ok (some (Config.set cfg none "bap_executable_path" p)))

/-- Inner helper `config_bap_api`: set `enabled = "1"` in section `bap_api`
only when unset. -/
def config_bap_api (cfg : Config) : Config :=
  match Config.get cfg (some "bap_api") "enabled" with
  | some _ => cfg
  | none => Config.set cfg (some "bap_api") "enabled" "1"

/-- `check_and_configure_bap`: `config_path()` then `config_bap_api()`. -/
def check_and_configure_bap (cfg : Config) (env : ResolverIn) :
    List ResolverEffect × Except Unit (Option Config) :=
  match config_path cfg env with
  | (eff, .error e) => (eff, .error e)
  | (eff, .ok none) => (eff, .ok none)
  | (eff, .ok (some c)) => (eff, .ok (some (config_bap_api c)))

/-! ### Python `str.format` on the command template literals -/

/-- Scanner for Python `str.format` restricted to plain `\x7bname\x7d`
placeholders, which is all the source's templates use. The second argument
is `none` while copying literal text, and `some acc` while reading a
placeholder name (accumulated reversed). -/
def pyFormatGo (m : String → String) : List Char → Option (List Char) → List Char
  | [], _ => []
  | c :: rest, none =>
    if c = '{' then pyFormatGo m rest (some [])
    else c :: pyFormatGo m rest none
  | c :: rest, some acc =>
    if c = '}' then (m (String.mk acc.reverse)).data ++ pyFormatGo m rest none
    else pyFormatGo m rest (some (c :: acc))

/-- `template.format(**args)` with `m` giving each key's value. -/
def pyFormat (t : String) (m : String → String) : String :=
  String.mk (pyFormatGo m t.data none)

/-- The `args` dict built by `run_bap_with`. -/
structure Args where
  bap_executable_path : String
  bap_output_file : String
  input_file_path : String
  symbol_file_location : String
  header_path : String
  remaining_args : String
  deriving DecidableEq

/-- `args` as the key-to-value map `str.format` consumes. -/
def Args.lookup (a : Args) (k : String) : String :=
  if k = "bap_executable_path" then a.bap_executable_path
  else if k = "bap_output_file" then a.bap_output_file
  else if k = "input_file_path" then a.input_file_path
  else if k = "symbol_file_location" then a.symbol_file_location
  else if k = "header_path" then a.header_path
  else if k = "remaining_args" then a.remaining_args
  else ""

/-- The `no_extras` command template literal, with the Python
backslash-newline continuations resolved (the 12-space indentation of the
continuation lines is part of the string). -/
def minimal_command_template : String :=
  "            \"{bap_executable_path}\" \"{input_file_path}\"             {remaining_args}             > \"{bap_output_file}\" 2>&1             "

/-- The full-mode command template literal, continuations resolved. -/
def full_command_template : String :=
  "            \"{bap_executable_path}\" \"{input_file_path}\"             --read-symbols-from=\"{symbol_file_location}\"             --symbolizer=file             --rooter=file             {remaining_args}             -d > \"{bap_output_file}\" 2>&1             "

/-- The `--api-add` side-call template literal (16-space indentation). -/
def api_add_template : String :=
  "                \"{bap_executable_path}\"                 --api-add=c:\"{header_path}\"                 "

/-- The `--api-remove` side-call template literal. -/
def api_remove_template : String :=
  "                \"{bap_executable_path}\"                 --api-remove=c:`basename \"{header_path}\"`                 "

/-- The cleanup `rm -f` template literal (8/12-space indentation). -/
def rm_template : String :=
  "        rm -f             \"{symbol_file_location}\"             \"{header_path}\"             \"{bap_output_file}\"         "

/-- The minimal-mode command string. -/
def mk_minimal_command (a : Args) : String :=
  pyFormat minimal_command_template a.lookup

/-- The full-mode command string. -/
def mk_full_command (a : Args) : String :=
  pyFormat full_command_template a.lookup

/-- The `--api-add` side-call command string. -/
def mk_api_add_command (a : Args) : String :=
  pyFormat api_add_template a.lookup

/-- The `--api-remove` side-call command string. -/
def mk_api_remove_command (a : Args) : String :=
  pyFormat api_remove_template a.lookup

/-- The cleanup removal command string. -/
def mk_rm_command (a : Args) : String :=
  pyFormat rm_template a.lookup

/-! ### The run orchestrator -/

/-- Observable actions of `run_bap_with`. -/
inductive Effect
  | mkstemp (path : String)
  | dumpSymbolInfo (path : String)
  | dumpCHeader (path : String)
  | exec (cmd : String)
  | viewUpdate (text : String)
  | closeForm
  deriving DecidableEq

/-- Environment of `run_bap_with`: the resolver environment, the current
input file (`idc.GetInputFilePath`), the three `tempfile.mkstemp` paths,
the text later read back from the output file, and whether
`idaapi.find_tform "BAP View"` finds a panel. -/
structure RunEnv where
  resolver : ResolverIn
  input_file_path : String
  out_tmp : String
  sym_tmp : String
  hdr_tmp : String
  out_content : String
  view_exists : Bool

/-- The text passed to `BAP_View.update`. -/
def view_text (command out_content : String) : String :=
  "BAP execution string\n" ++ "--------------------\n" ++ "\n" ++
  pyjoin "\n    --" ((splitDashDash (pystrip command).data []).map String.mk) ++
  "\n" ++ "\n" ++ "Output\n" ++ "------\n" ++ "\n" ++ out_content

/-- The effect trace of `run_bap_with` from the point where the resolver
has yielded executable path `exe` (temp staging onward). -/
def orchestrate (cfg : Config) (env : RunEnv) (argument_string : String)
    (no_extras : Bool) (exe : String) : List Effect :=
  let a : Args :=
    ⟨exe, env.out_tmp, env.input_file_path, env.sym_tmp, env.hdr_tmp,
      argument_string⟩
  let setup : List Effect :=
    [.mkstemp env.out_tmp, .mkstemp env.sym_tmp, .mkstemp env.hdr_tmp]
  if no_extras then
    setup
      ++ [Effect.exec (mk_minimal_command a)]
      ++ [Effect.viewUpdate (view_text (mk_minimal_command a) env.out_content)]
      ++ (if env.view_exists then [Effect.closeForm] else [])
      ++ [Effect.exec (mk_rm_command a)]
  else
    let bap_api_enabled : Bool :=
      ["1", "true", "yes"].contains
        (pylower ((Config.get cfg (some "bap_api") "enabled").getD "0"))
    setup
      ++ [Effect.dumpSymbolInfo env.sym_tmp]
      ++ (if bap_api_enabled then
            [Effect.dumpCHeader env.hdr_tmp,
             Effect.exec (mk_api_add_command a)]
          else [])
      ++ [Effect.exec (mk_full_command a)]
      ++ [Effect.viewUpdate (view_text (mk_full_command a) env.out_content)]
      ++ (if env.view_exists then [Effect.closeForm] else [])
      ++ (if bap_api_enabled then [Effect.exec (mk_api_remove_command a)]
          else [])
      ++ [Effect.exec (mk_rm_command a)]

/-- `run_bap_with argument_string no_extras`: run the resolver, return
silently when the path is still unset, otherwise stage temp files, build
and execute the command, update the view, and clean up. Result: `.error`
models the resolver's uncaught exception, `.ok none` the resolver blocked
on the user, and `.ok (some (cfg', trace))` a completed call with final
configuration and effect trace. -/
def run_bap_with (cfg : Config) (env : RunEnv) (argument_string : String)
    (no_extras : Bool) : Except Unit (Option (Config × List Effect)) :=
  match (check_and_configure_bap cfg env.resolver).2 with
  | .error e => .error e
  | .ok none => .ok none
  | .ok (some cfg') =>
    match Config.get cfg' none "bap_executable_path" with
    | none => .ok (some (cfg', []))
    | some exe =>
      .ok (some (cfg', orchestrate cfg' env argument_string no_extras exe))

/-! ### Rendering the templates: closed forms of the command strings -/

/-- A template piece: literal text or a `\x7bname\x7d` placeholder. -/
inductive Tpl
  | lit (s : List Char)
  | hole (n : List Char)

/-- Well-formedness of a piece for the `str.format` scanner: literals hold
no `{`, placeholder names no `}`. -/
def tplOK : Tpl → Prop
  | .lit s => '{' ∉ s
  | .hole n => '}' ∉ n

instance : DecidablePred tplOK := fun t =>
  match t with
  | .lit s => inferInstanceAs (Decidable ('{' ∉ s))
  | .hole n => inferInstanceAs (Decidable ('}' ∉ n))

/-- Substitute values into a decomposed template. -/
def renderTpl (m : String → String) : List Tpl → List Char
  | [] => []
  | .lit s :: ts => s ++ renderTpl m ts
  | .hole n :: ts => (m (String.mk n)).data ++ renderTpl m ts

/-- The raw text of a decomposed template. -/
def flattenTpl : List Tpl → List Char
  | [] => []
  | .lit s :: ts => s ++ flattenTpl ts
  | .hole n :: ts => '{' :: (n ++ '}' :: flattenTpl ts)

/-- Decomposition of `minimal_command_template`. -/
def minimalTpl : List Tpl :=
  [.lit "            \"".data, .hole "bap_executable_path".data,
   .lit "\" \"".data, .hole "input_file_path".data,
   .lit "\"             ".data, .hole "remaining_args".data,
   .lit "             > \"".data, .hole "bap_output_file".data,
   .lit "\" 2>&1             ".data]

/-- Decomposition of `full_command_template`. -/
def fullTpl : List Tpl :=
  [.lit "            \"".data, .hole "bap_executable_path".data,
   .lit "\" \"".data, .hole "input_file_path".data,
   .lit "\"             --read-symbols-from=\"".data,
   .hole "symbol_file_location".data,
   .lit "\"             --symbolizer=file             --rooter=file             ".data,
   .hole "remaining_args".data,
   .lit "             -d > \"".data, .hole "bap_output_file".data,
   .lit "\" 2>&1             ".data]

/-- Decomposition of `api_add_template`. -/
def apiAddTpl : List Tpl :=
  [.lit "                \"".data, .hole "bap_executable_path".data,
   .lit "\"                 --api-add=c:\"".data, .hole "header_path".data,
   .lit "\"                 ".data]

/-- Decomposition of `api_remove_template`. -/
def apiRemoveTpl : List Tpl :=
  [.lit "                \"".data, .hole "bap_executable_path".data,
   .lit "\"                 --api-remove=c:`basename \"".data,
   .hole "header_path".data,
   .lit "\"`                 ".data]

/-- Decomposition of `rm_template`. -/
def rmTpl : List Tpl :=
  [.lit "        rm -f             \"".data, .hole "symbol_file_location".data,
   .lit "\"             \"".data, .hole "header_path".data,
   .lit "\"             \"".data, .hole "bap_output_file".data,
   .lit "\"         ".data]

/-- "`s` contains `sub` as a substring", Python's `sub in s`. -/
def strContainsSub (s sub : String) : Prop :=
  sub.data <:+: s.data

instance (s sub : String) : Decidable (strContainsSub s sub) :=
  inferInstanceAs (Decidable (sub.data <:+: s.data))

/-- The minimal-mode command exactly as the spec's §8.9 writes it:
`"<exe>" "<input>" <args> > "<out>" 2>&1`, single spaces, no other
characters. Written from the spec's words, to be compared with the
source-derived `mk_minimal_command`. -/
def spec_minimal_command (exe input args out : String) : String :=
  "\"" ++ exe ++ "\" \"" ++ input ++ "\" " ++ args ++ " > \"" ++ out
    ++ "\" 2>&1"

lemma pyFormatGo_lit (m : String → String) (lit rest : List Char)
    (h : '{' ∉ lit) :
    pyFormatGo m (lit ++ rest) none = lit ++ pyFormatGo m rest none := by
  induction lit with
  | nil => rfl
  | cons c cs ih =>
    have hc : c ≠ '{' := by rintro rfl; exact h (List.mem_cons_self _ _)
    have hcs : '{' ∉ cs := fun hm => h (List.mem_cons_of_mem _ hm)
    simp [pyFormatGo, hc, ih hcs]

lemma pyFormatGo_name (m : String → String) (n : List Char) (rest : List Char)
    (h : '}' ∉ n) :
    ∀ acc, pyFormatGo m (n ++ '}' :: rest) (some acc)
      = (m (String.mk (acc.reverse ++ n))).data ++ pyFormatGo m rest none := by
  induction n with
  | nil => intro acc; simp [pyFormatGo]
  | cons c cs ih =>
    intro acc
    have hc : c ≠ '}' := by rintro rfl; exact h (List.mem_cons_self _ _)
    have hcs : '}' ∉ cs := fun hm => h (List.mem_cons_of_mem _ hm)
    simp [pyFormatGo, hc, ih hcs (c :: acc)]

lemma pyFormatGo_flatten (m : String → String) :
    ∀ ts : List Tpl, (∀ t ∈ ts, tplOK t) →
      pyFormatGo m (flattenTpl ts) none = renderTpl m ts
  | [], _ => rfl
  | .lit s :: ts, h => by
    have hs : '{' ∉ s := h _ (List.mem_cons_self _ _)
    have hts := pyFormatGo_flatten m ts (fun t ht => h t (List.mem_cons_of_mem _ ht))
    simp [flattenTpl, renderTpl, pyFormatGo_lit m s _ hs, hts]
  | .hole n :: ts, h => by
    have hn : '}' ∉ n := h _ (List.mem_cons_self _ _)
    have hts := pyFormatGo_flatten m ts (fun t ht => h t (List.mem_cons_of_mem _ ht))
    simp [flattenTpl, renderTpl, pyFormatGo, pyFormatGo_name m n _ hn [], hts]

lemma Args.lookup_exe (a : Args) :
    a.lookup "bap_executable_path" = a.bap_executable_path := rfl

lemma Args.lookup_out (a : Args) :
    a.lookup "bap_output_file" = a.bap_output_file := rfl

lemma Args.lookup_input (a : Args) :
    a.lookup "input_file_path" = a.input_file_path := rfl

lemma Args.lookup_sym (a : Args) :
    a.lookup "symbol_file_location" = a.symbol_file_location := rfl

lemma Args.lookup_hdr (a : Args) :
    a.lookup "header_path" = a.header_path := rfl

lemma Args.lookup_rem (a : Args) :
    a.lookup "remaining_args" = a.remaining_args := rfl

lemma mk_minimal_command_eq (a : Args) :
    mk_minimal_command a =
      "            \"" ++ a.bap_executable_path ++ "\" \"" ++ a.input_file_path
        ++ "\"             " ++ a.remaining_args ++ "             > \""
        ++ a.bap_output_file ++ "\" 2>&1             " := by
  apply String.ext
  have hf : minimal_command_template.data = flattenTpl minimalTpl := by decide
  show pyFormatGo a.lookup minimal_command_template.data none = _
  rw [hf, pyFormatGo_flatten _ _ (by decide)]
  simp [renderTpl, minimalTpl, Args.lookup_exe, Args.lookup_out,
    Args.lookup_input, Args.lookup_rem, String.data_append]

lemma mk_full_command_eq (a : Args) :
    mk_full_command a =
      "            \"" ++ a.bap_executable_path ++ "\" \"" ++ a.input_file_path
        ++ "\"             --read-symbols-from=\"" ++ a.symbol_file_location
        ++ "\"             --symbolizer=file             --rooter=file             "
        ++ a.remaining_args ++ "             -d > \"" ++ a.bap_output_file
        ++ "\" 2>&1             " := by
  apply String.ext
  have hf : full_command_template.data = flattenTpl fullTpl := by decide
  show pyFormatGo a.lookup full_command_template.data none = _
  rw [hf, pyFormatGo_flatten _ _ (by decide)]
  simp [renderTpl, fullTpl, Args.lookup_exe, Args.lookup_out,
    Args.lookup_input, Args.lookup_sym, Args.lookup_rem, String.data_append]

lemma mk_api_add_command_eq (a : Args) :
    mk_api_add_command a =
      "                \"" ++ a.bap_executable_path
        ++ "\"                 --api-add=c:\"" ++ a.header_path
        ++ "\"                 " := by
  apply String.ext
  have hf : api_add_template.data = flattenTpl apiAddTpl := by decide
  show pyFormatGo a.lookup api_add_template.data none = _
  rw [hf, pyFormatGo_flatten _ _ (by decide)]
  simp [renderTpl, apiAddTpl, Args.lookup_exe, Args.lookup_hdr,
    String.data_append]

lemma mk_api_remove_command_eq (a : Args) :
    mk_api_remove_command a =
      "                \"" ++ a.bap_executable_path
        ++ "\"                 --api-remove=c:`basename \"" ++ a.header_path
        ++ "\"`                 " := by
  apply String.ext
  have hf : api_remove_template.data = flattenTpl apiRemoveTpl := by decide
  show pyFormatGo a.lookup api_remove_template.data none = _
  rw [hf, pyFormatGo_flatten _ _ (by decide)]
  simp [renderTpl, apiRemoveTpl, Args.lookup_exe, Args.lookup_hdr,
    String.data_append]

lemma mk_rm_command_eq (a : Args) :
    mk_rm_command a =
      "        rm -f             \"" ++ a.symbol_file_location
        ++ "\"             \"" ++ a.header_path ++ "\"             \""
        ++ a.bap_output_file ++ "\"         " := by
  apply String.ext
  have hf : rm_template.data = flattenTpl rmTpl := by decide
  show pyFormatGo a.lookup rm_template.data none = _
  rw [hf, pyFormatGo_flatten _ _ (by decide)]
  simp [renderTpl, rmTpl, Args.lookup_sym, Args.lookup_hdr, Args.lookup_out,
    String.data_append]

/-! ### Substring occurrence across concatenations -/

lemma infix_append_cases {α : Type} {p x y : List α} (h : p <:+: x ++ y) :
    p <:+: x ∨ p <:+: y ∨
      ∃ p₁ p₂, p₁ ++ p₂ = p ∧ p₁ ≠ [] ∧ p₂ ≠ [] ∧ p₁ <:+ x ∧ p₂ <+: y := by
  obtain ⟨s, t, hst⟩ := h
  rw [List.append_assoc] at hst
  rcases List.append_eq_append_iff.mp hst with ⟨e, he1, he2⟩ | ⟨e, he1, he2⟩
  · rcases List.append_eq_append_iff.mp he2 with ⟨f, hf1, hf2⟩ | ⟨g, hg1, hg2⟩
    · refine Or.inl ⟨s, f, ?_⟩
      rw [he1, hf1, List.append_assoc]
    · by_cases he : e = []
      · refine Or.inr (Or.inl ⟨[], t, ?_⟩)
        subst he
        simp at hg1
        rw [hg2, hg1]
        simp
      · by_cases hg : g = []
        · refine Or.inl ⟨s, [], ?_⟩
          subst hg
          simp at hg1
          rw [he1, hg1]
          simp
        · exact Or.inr (Or.inr ⟨e, g, hg1.symm, he, hg, ⟨s, he1.symm⟩, ⟨t, hg2.symm⟩⟩)
  · refine Or.inr (Or.inl ⟨e, t, ?_⟩)
    rw [he2, List.append_assoc]

/-- An occurrence of `p` in `x ++ y` cannot straddle the boundary when `y`
starts with a character not occurring in `p`. -/
lemma peel_head {p x y : List Char} {c : Char} (hc : c ∉ p)
    (h : p <:+: x ++ y) (hhead : y.head? = some c) :
    p <:+: x ∨ p <:+: y := by
  rcases infix_append_cases h with h1 | h1 | ⟨p₁, p₂, hp, _, h2, _, hpre⟩
  · exact Or.inl h1
  · exact Or.inr h1
  · exfalso
    cases y with
    | nil => simp at hhead
    | cons a as =>
      obtain ⟨t, ht⟩ := hpre
      cases p₂ with
      | nil => exact h2 rfl
      | cons b bs =>
        have hba : b = a := by
          rw [List.cons_append] at ht
          exact (List.cons.injEq ..).mp ht |>.1
        have hac : a = c := by simpa using hhead
        refine hc ?_
        rw [← hp, hba, hac]
        exact List.mem_append_right p₁ (List.mem_cons_self _ _)

/-- An occurrence of `p` in `x ++ y` cannot straddle the boundary when `x`
ends with a character not occurring in `p`. -/
lemma peel_last {p x y : List Char} {c : Char} (hc : c ∉ p)
    (h : p <:+: x ++ y) (hlast : x.getLast? = some c) :
    p <:+: x ∨ p <:+: y := by
  rcases infix_append_cases h with h1 | h1 | ⟨p₁, p₂, hp, h1, _, hsuf, _⟩
  · exact Or.inl h1
  · exact Or.inr h1
  · exfalso
    obtain ⟨s, hs⟩ := hsuf
    rcases List.eq_nil_or_concat p₁ with rfl | ⟨ini, b, hini⟩
    · exact h1 rfl
    · have hx : x.getLast? = some b := by
        rw [← hs, hini]
        simp [List.concat_eq_append, ← List.append_assoc]
      have hbc : b = c := by
        rw [hx] at hlast
        exact Option.some.injEq .. ▸ hlast |>.symm ▸ rfl
      refine hc ?_
      rw [← hp, ← hbc]
      refine List.mem_append_left p₂ ?_
      rw [hini]
      simp [List.concat_eq_append]

/-- Any substring of the minimal-mode command that contains neither a
quote nor a space lies within a single template piece or a single
substituted value. -/
lemma minimal_command_infix_pieces {a : Args} {p : List Char}
    (hq : '"' ∉ p) (hsp : ' ' ∉ p)
    (h : p <:+: (mk_minimal_command a).data) :
    p <:+: "            \"".data ∨ p <:+: a.bap_executable_path.data ∨
    p <:+: "\" \"".data ∨ p <:+: a.input_file_path.data ∨
    p <:+: "\"             ".data ∨ p <:+: a.remaining_args.data ∨
    p <:+: "             > \"".data ∨ p <:+: a.bap_output_file.data ∨
    p <:+: "\" 2>&1             ".data := by
  rw [mk_minimal_command_eq] at h
  simp only [String.data_append, List.append_assoc] at h
  rcases peel_last (c := '"') hq h (by decide) with h' | h
  · exact Or.inl h'
  rcases peel_head (c := '"') hq h rfl with h' | h
  · exact Or.inr (Or.inl h')
  rcases peel_last (c := '"') hq h (by decide) with h' | h
  · exact Or.inr (Or.inr (Or.inl h'))
  rcases peel_head (c := '"') hq h rfl with h' | h
  · exact Or.inr (Or.inr (Or.inr (Or.inl h')))
  rcases peel_last (c := ' ') hsp h (by decide) with h' | h
  · exact Or.inr (Or.inr (Or.inr (Or.inr (Or.inl h'))))
  rcases peel_head (c := ' ') hsp h rfl with h' | h
  · exact Or.inr (Or.inr (Or.inr (Or.inr (Or.inr (Or.inl h')))))
  rcases peel_last (c := '"') hq h (by decide) with h' | h
  · exact Or.inr (Or.inr (Or.inr (Or.inr (Or.inr (Or.inr (Or.inl h'))))))
  rcases peel_head (c := '"') hq h rfl with h' | h
  · exact Or.inr (Or.inr (Or.inr (Or.inr (Or.inr (Or.inr (Or.inr (Or.inl h')))))))
  exact Or.inr (Or.inr (Or.inr (Or.inr (Or.inr (Or.inr (Or.inr (Or.inr h)))))))

/-! ### Claims C4 and C5: the minimal-mode command string -/

/-- C4 (as stated) is falsified by an `argument_string` that itself
contains one of the three flags: with `argument_string = "--rooter=file"`
the minimal-mode command does contain `--rooter`. -/
theorem C4_counterexample :
    strContainsSub
      (mk_minimal_command
        ⟨"/usr/bin/bap", "/tmp/ida-bap-1.out", "/bin/ls", "/tmp/ida-bap-2.sym",
          "/tmp/ida-bap-3.h", "--rooter=file"⟩)
      "--rooter" := by decide

/-- C4 (amended): in minimal mode the template itself contributes none of
`--read-symbols-from`, `--symbolizer`, `--rooter`; the command contains
such a flag only if one of the four substituted values (executable path,
input path, argument string, output path) already contains it. -/
theorem C4_minimal_mode_flag_freedom (a : Args) (flag : String)
    (hflag : flag ∈ ["--read-symbols-from", "--symbolizer", "--rooter"])
    (h1 : ¬ strContainsSub a.bap_executable_path flag)
    (h2 : ¬ strContainsSub a.input_file_path flag)
    (h3 : ¬ strContainsSub a.remaining_args flag)
    (h4 : ¬ strContainsSub a.bap_output_file flag) :
    ¬ strContainsSub (mk_minimal_command a) flag := by
  intro hin
  have hflag3 : flag = "--read-symbols-from" ∨ flag = "--symbolizer" ∨
      flag = "--rooter" := by simpa using hflag
  have hq : '"' ∉ flag.data := by
    rcases hflag3 with rfl | rfl | rfl <;> decide
  have hsp : ' ' ∉ flag.data := by
    rcases hflag3 with rfl | rfl | rfl <;> decide
  rcases minimal_command_infix_pieces hq hsp hin with
    h' | h' | h' | h' | h' | h' | h' | h' | h'
  · rcases hflag3 with rfl | rfl | rfl <;> exact absurd h' (by decide)
  · exact h1 h'
  · rcases hflag3 with rfl | rfl | rfl <;> exact absurd h' (by decide)
  · exact h2 h'
  · rcases hflag3 with rfl | rfl | rfl <;> exact absurd h' (by decide)
  · exact h3 h'
  · rcases hflag3 with rfl | rfl | rfl <;> exact absurd h' (by decide)
  · exact h4 h'
  · rcases hflag3 with rfl | rfl | rfl <;> exact absurd h' (by decide)

/-- Witness for C4 at a concrete input. -/
theorem C4_witness :
    ¬ strContainsSub
      (mk_minimal_command
        ⟨"/usr/bin/bap", "/tmp/ida-bap-1.out", "/bin/ls", "/tmp/ida-bap-2.sym",
          "/tmp/ida-bap-3.h", "-analyze"⟩)
      "--rooter" :=
  C4_minimal_mode_flag_freedom
    ⟨"/usr/bin/bap", "/tmp/ida-bap-1.out", "/bin/ls", "/tmp/ida-bap-2.sym",
      "/tmp/ida-bap-3.h", "-analyze"⟩
    "--rooter" (by decide) (by decide) (by decide) (by decide) (by decide)

/-- C5 (as stated) is falsified: the constructed command carries the
source literal's indentation (a leading 12-space run, 13-space runs
between segments and at the end), so it is not exactly the spec's
single-space template. -/
theorem C5_counterexample :
    mk_minimal_command
        ⟨"/usr/bin/bap", "/tmp/ida-bap-1.out", "/bin/ls", "/tmp/ida-bap-2.sym",
          "/tmp/ida-bap-3.h", "-analyze"⟩
      ≠ spec_minimal_command "/usr/bin/bap" "/bin/ls" "-analyze"
          "/tmp/ida-bap-1.out" := by decide

/-- C5 (amended): with `argument_string = "-analyze"` the minimal-mode
command equals the spec's token sequence with the literal's whitespace:
12 leading spaces, 13-space separators around `-analyze`, 13 trailing
spaces, and nothing else. -/
theorem C5_minimal_analyze_command (exe input out sym hdr : String) :
    mk_minimal_command ⟨exe, out, input, sym, hdr, "-analyze"⟩ =
      "            \"" ++ exe ++ "\" \"" ++ input
        ++ "\"             -analyze             > \"" ++ out
        ++ "\" 2>&1             " := by
  rw [mk_minimal_command_eq]
  simp [String.append_assoc]

/-! ### Configuration storage facts -/

lemma Config.get_set_self (cfg : Config) (s : Option String) (k v : String) :
    Config.get (Config.set cfg s k v) s k = some v := by
  simp [Config.get, Config.set]

lemma Config.get_set_ne (cfg : Config) (s : Option String) (k v : String)
    (s' : Option String) (k' : String) (h : (s, k) ≠ (s', k')) :
    Config.get (Config.set cfg s k v) s' k' = Config.get cfg s' k' := by
  simp [Config.get, Config.set, h]

lemma config_bap_api_get_default_section (cfg : Config) (k : String) :
    Config.get (config_bap_api cfg) none k = Config.get cfg none k := by
  unfold config_bap_api
  cases hg : Config.get cfg (some "bap_api") "enabled" with
  | some v => rfl
  | none => exact Config.get_set_ne cfg _ _ _ _ _ (by simp)

lemma config_bap_api_enabled_isSome (cfg : Config) :
    (Config.get (config_bap_api cfg) (some "bap_api") "enabled").isSome := by
  unfold config_bap_api
  cases hg : Config.get cfg (some "bap_api") "enabled" with
  | some v => simp [hg]
  | none => simp [Config.get_set_self]

lemma config_bap_api_of_isSome (cfg : Config)
    (h : (Config.get cfg (some "bap_api") "enabled").isSome) :
    config_bap_api cfg = cfg := by
  unfold config_bap_api
  cases hg : Config.get cfg (some "bap_api") "enabled" with
  | some v => rfl
  | none => rw [hg] at h; simp at h

lemma config_bap_api_idem (cfg : Config) :
    config_bap_api (config_bap_api cfg) = config_bap_api cfg :=
  config_bap_api_of_isSome _ (config_bap_api_enabled_isSome cfg)

lemma config_bap_api_get_enabled (cfg : Config) :
    Config.get (config_bap_api cfg) (some "bap_api") "enabled" =
      match Config.get cfg (some "bap_api") "enabled" with
      | none => some "1"
      | some v => some v := by
  unfold config_bap_api
  cases hg : Config.get cfg (some "bap_api") "enabled" with
  | some v => simp [hg]
  | none => simp [hg, Config.get_set_self]

/-! ### Inversion of the resolver -/

lemma config_path_cases (cfg : Config) (env : ResolverIn) (c : Config)
    (h : (config_path cfg env).2 = .ok (some c)) :
    (∃ q, Config.get cfg none "bap_executable_path" = some q ∧ c = cfg) ∨
    (∃ d, Config.get cfg none "bap_executable_path" = none ∧
      suggested_default env.which env.opam = .ok d ∧
      ((ask_loop env.isfile env.dialogs = some none ∧ c = cfg) ∨
       (∃ p, ask_loop env.isfile env.dialogs = some (some p) ∧
         c = Config.set cfg none "bap_executable_path" p))) := by
  cases hg : Config.get cfg none "bap_executable_path" with
  | some q =>
    simp [config_path, hg] at h
    exact Or.inl ⟨q, rfl, h.symm⟩
  | none =>
    cases hs : suggested_default env.which env.opam with
    | error e => simp [config_path, hg, hs] at h
    | ok d =>
      cases ha : ask_loop env.isfile env.dialogs with
      | none => simp [config_path, hg, hs, ha] at h
      | some r =>
        cases r with
        | none =>
          simp [config_path, hg, hs, ha] at h
          exact Or.inr ⟨d, rfl, rfl, Or.inl ⟨rfl, h.symm⟩⟩
        | some p =>
          simp [config_path, hg, hs, ha] at h
          exact Or.inr ⟨d, rfl, rfl, Or.inr ⟨p, rfl, h.symm⟩⟩

lemma config_path_of_set (cfg : Config) (env : ResolverIn) (q : String)
    (h : Config.get cfg none "bap_executable_path" = some q) :
    (config_path cfg env).2 = .ok (some cfg) := by
  simp [config_path, h]

lemma config_path_of_decline (cfg : Config) (env : ResolverIn) (d : String)
    (hunset : Config.get cfg none "bap_executable_path" = none)
    (hsug : suggested_default env.which env.opam = .ok d)
    (ha : ask_loop env.isfile env.dialogs = some none) :
    (config_path cfg env).2 = .ok (some cfg) := by
  simp [config_path, hunset, hsug, ha]

lemma check_of_config_path (cfg : Config) (env : ResolverIn) (r : Config)
    (h : (config_path cfg env).2 = .ok (some r)) :
    (check_and_configure_bap cfg env).2 = .ok (some (config_bap_api r)) := by
  rcases hcp : config_path cfg env with ⟨eff, rr⟩
  rw [hcp] at h
  simp at h
  subst h
  simp [check_and_configure_bap, hcp]

lemma check_and_configure_cases (cfg : Config) (env : ResolverIn) (c : Config)
    (h : (check_and_configure_bap cfg env).2 = .ok (some c)) :
    ∃ c₀, (config_path cfg env).2 = .ok (some c₀) ∧ c = config_bap_api c₀ := by
  rcases hcp : config_path cfg env with ⟨eff, r⟩
  rw [check_and_configure_bap, hcp] at h
  cases r with
  | error e => simp at h
  | ok o =>
    cases o with
    | none => simp at h
    | some c₀ =>
      simp at h
      exact ⟨c₀, rfl, h.symm⟩

/-! ### Claims about the resolver: C1, C3, C7, C8, C9, C10 -/

/-- C1: if the executable path is unset, discovery completes, and the user
declines to set a path (cancels the file dialog and confirms), then
`run_bap_with` — for every argument string and mode — returns with the
path entry still absent, an empty effect trace (no `idc.Exec` subprocess,
no `tempfile.mkstemp`), and only the `bap_api` default possibly written. -/
theorem C1_decline_is_silent (cfg : Config) (env : RunEnv) (args : String)
    (mode : Bool)
    (hunset : Config.get cfg none "bap_executable_path" = none)
    (hsug : ∃ d, suggested_default env.resolver.which env.resolver.opam
      = Except.ok d)
    (hdecline : ask_loop env.resolver.isfile env.resolver.dialogs
      = some none) :
    ∃ c : Config,
      run_bap_with cfg env args mode = .ok (some (c, [])) ∧
      Config.get c none "bap_executable_path" = none := by
  obtain ⟨d, hd⟩ := hsug
  have hcp : (config_path cfg env.resolver).2 = .ok (some cfg) :=
    config_path_of_decline cfg env.resolver d hunset hd hdecline
  have hchk : (check_and_configure_bap cfg env.resolver).2
      = .ok (some (config_bap_api cfg)) :=
    check_of_config_path _ _ _ hcp
  have hget : Config.get (config_bap_api cfg) none "bap_executable_path"
      = none := by
    rw [config_bap_api_get_default_section]; exact hunset
  refine ⟨config_bap_api cfg, ?_, hget⟩
  simp [run_bap_with, hchk, hget]

/-- Witness for C1: the spec's §8.8 scenario — cancel, decline-confirm
answered "no" (retry), cancel again, decline-confirm answered "yes". -/
theorem C1_witness :
    ∃ c : Config,
      run_bap_with []
          ⟨⟨.osError, .osError, fun _ => true,
            [.file none, .yesno false, .file none, .yesno true]⟩,
            "/bin/ls", "/tmp/ida-bap-1.out", "/tmp/ida-bap-2.sym",
            "/tmp/ida-bap-3.h", "", false⟩
          "-analyze" false
        = .ok (some (c, [])) ∧
      Config.get c none "bap_executable_path" = none :=
  C1_decline_is_silent []
    ⟨⟨.osError, .osError, fun _ => true,
      [.file none, .yesno false, .file none, .yesno true]⟩,
      "/bin/ls", "/tmp/ida-bap-1.out", "/tmp/ida-bap-2.sym",
      "/tmp/ida-bap-3.h", "", false⟩
    "-analyze" false rfl ⟨"", rfl⟩ rfl

/-- C3: counterexample to "probe failures are never surfaced out of the
resolver" — when `which` fails with `OSError` and `opam` fails with
`CalledProcessError` (it ran and exited nonzero), the inner handler
`except OSError` does not catch it and the exception escapes the
resolver. -/
theorem C3_counterexample :
    (check_and_configure_bap []
        ⟨.osError, .calledProcessError, fun _ => true, []⟩).2
      = .error () := by rfl

/-- C3 (amended): probe failures are swallowed and yield no suggestion,
except a `CalledProcessError` from the `opam` probe, which propagates. In
every non-propagating outcome the resolver's suggested default is either a
path ending in `"bap"` or the empty string, and when both probes fail
(`which` failed, `opam` raised `OSError`) it is the empty string. -/
theorem C3_swallowed_probe_failures (which opam : ProbeResult)
    (h : (∀ s, which ≠ ProbeResult.ok s) →
      opam ≠ ProbeResult.calledProcessError) :
    ∃ d : String, suggested_default which opam = Except.ok d ∧
      (endswith d "bap" = true ∨ d = "") ∧
      (((∀ s, which ≠ ProbeResult.ok s) ∧ opam = ProbeResult.osError) →
        d = "") := by
  cases which with
  | ok s =>
    refine ⟨if endswith (pystrip s) "bap" then pystrip s else "", rfl, ?_, ?_⟩
    · by_cases hb : endswith (pystrip s) "bap" = true
      · rw [if_pos hb]; exact Or.inl hb
      · rw [if_neg ?_]
        · exact Or.inr rfl
        · exact fun hh => hb hh
    · rintro ⟨hno, -⟩
      exact absurd rfl (hno s)
  | osError =>
    cases opam with
    | ok s =>
      refine ⟨if endswith (ospath_join (pystrip s) "bap") "bap"
          then ospath_join (pystrip s) "bap" else "", rfl, ?_, ?_⟩
      · by_cases hb : endswith (ospath_join (pystrip s) "bap") "bap" = true
        · rw [if_pos hb]; exact Or.inl hb
        · rw [if_neg ?_]
          · exact Or.inr rfl
          · exact fun hh => hb hh
      · rintro ⟨-, hosErr⟩
        cases hosErr
    | osError => exact ⟨"", rfl, Or.inr rfl, fun _ => rfl⟩
    | calledProcessError =>
      exact absurd rfl (h (fun s hs => by cases hs))
  | calledProcessError =>
    cases opam with
    | ok s =>
      refine ⟨if endswith (ospath_join (pystrip s) "bap") "bap"
          then ospath_join (pystrip s) "bap" else "", rfl, ?_, ?_⟩
      · by_cases hb : endswith (ospath_join (pystrip s) "bap") "bap" = true
        · rw [if_pos hb]; exact Or.inl hb
        · rw [if_neg ?_]
          · exact Or.inr rfl
          · exact fun hh => hb hh
      · rintro ⟨-, hosErr⟩
        cases hosErr
    | osError => exact ⟨"", rfl, Or.inr rfl, fun _ => rfl⟩
    | calledProcessError =>
      exact absurd rfl (h (fun s hs => by cases hs))

/-- Witness for C3 (amended) at both probes failing (`which` missing,
`opam` missing). -/
theorem C3_witness :
    ∃ d : String,
      suggested_default ProbeResult.osError ProbeResult.osError
        = Except.ok d ∧
      (endswith d "bap" = true ∨ d = "") ∧
      (((∀ s, ProbeResult.osError ≠ ProbeResult.ok s) ∧
          ProbeResult.osError = ProbeResult.osError) → d = "") :=
  C3_swallowed_probe_failures ProbeResult.osError ProbeResult.osError
    (fun _ h => by cases h)

/-- C7: when `bap_executable_path` is already configured, the resolver
invokes no discovery probe (not `which`, not `opam`) and leaves the path
entry unchanged. -/
theorem C7_no_probes_when_set (cfg : Config) (env : ResolverIn) (p : String)
    (hset : Config.get cfg none "bap_executable_path" = some p) :
    (check_and_configure_bap cfg env).1 = [] ∧
    (check_and_configure_bap cfg env).2 = .ok (some (config_bap_api cfg)) ∧
    Config.get (config_bap_api cfg) none "bap_executable_path" = some p := by
  have hcp : config_path cfg env = ([], .ok (some cfg)) := by
    simp [config_path, hset]
  refine ⟨?_, ?_, ?_⟩
  · simp [check_and_configure_bap, hcp]
  · simp [check_and_configure_bap, hcp]
  · rw [config_bap_api_get_default_section]; exact hset

/-- Witness for C7 at a configuration that already holds a path. -/
theorem C7_witness :
    (check_and_configure_bap [((none, "bap_executable_path"), "/usr/bin/bap")]
        ⟨.osError, .osError, fun _ => true, []⟩).1 = [] ∧
    (check_and_configure_bap [((none, "bap_executable_path"), "/usr/bin/bap")]
        ⟨.osError, .osError, fun _ => true, []⟩).2
      = .ok (some (config_bap_api
          [((none, "bap_executable_path"), "/usr/bin/bap")])) ∧
    Config.get (config_bap_api [((none, "bap_executable_path"), "/usr/bin/bap")])
        none "bap_executable_path" = some "/usr/bin/bap" :=
  C7_no_probes_when_set [((none, "bap_executable_path"), "/usr/bin/bap")]
    ⟨.osError, .osError, fun _ => true, []⟩ "/usr/bin/bap" rfl

/-- C8: after a completed configuration pass, `enabled` in section
`bap_api` is `"1"` if it was previously unset, and keeps its prior value
otherwise. -/
theorem C8_enabled_set_once (cfg : Config) (env : ResolverIn) (c : Config)
    (hdone : (check_and_configure_bap cfg env).2 = .ok (some c)) :
    Config.get c (some "bap_api") "enabled" =
      match Config.get cfg (some "bap_api") "enabled" with
      | none => some "1"
      | some v => some v := by
  obtain ⟨c₀, hcp, rfl⟩ := check_and_configure_cases cfg env c hdone
  have hsame : Config.get c₀ (some "bap_api") "enabled"
      = Config.get cfg (some "bap_api") "enabled" := by
    rcases config_path_cases cfg env c₀ hcp with
      ⟨q, _, rfl⟩ | ⟨d, _, _, ⟨_, rfl⟩ | ⟨p, _, rfl⟩⟩
    · rfl
    · rfl
    · exact Config.get_set_ne cfg _ _ _ _ _ (by simp)
  rw [config_bap_api_get_enabled, hsame]

/-- Witness for C8: a pass over the empty configuration with the user
declining (the flag was unset and becomes `"1"`). -/
theorem C8_witness :
    Config.get (config_bap_api []) (some "bap_api") "enabled" =
      match Config.get ([] : Config) (some "bap_api") "enabled" with
      | none => some "1"
      | some v => some v :=
  C8_enabled_set_once []
    ⟨.osError, .osError, fun _ => true, [.file none, .yesno true]⟩
    (config_bap_api []) rfl

/-- C9: the resolver is idempotent on configuration storage — running
`check_and_configure_bap` again after a completed run, with the same probe
outcomes and user responses, returns the stored configuration unchanged. -/
theorem C9_resolver_idempotent (cfg : Config) (env : ResolverIn) (c : Config)
    (h1 : (check_and_configure_bap cfg env).2 = .ok (some c)) :
    (check_and_configure_bap c env).2 = .ok (some c) := by
  obtain ⟨c₀, hcp, rfl⟩ := check_and_configure_cases cfg env c h1
  rcases config_path_cases cfg env c₀ hcp with
    ⟨q, hset, rfl⟩ | ⟨d, hunset, hsug, ⟨ha, rfl⟩ | ⟨p, ha, rfl⟩⟩
  · have hget : Config.get (config_bap_api c₀) none "bap_executable_path"
        = some q := by
      rw [config_bap_api_get_default_section]; exact hset
    have := check_of_config_path (config_bap_api c₀) env _
      (config_path_of_set _ env q hget)
    rw [this, config_bap_api_idem]
  · have hget : Config.get (config_bap_api c₀) none "bap_executable_path"
        = none := by
      rw [config_bap_api_get_default_section]; exact hunset
    have := check_of_config_path (config_bap_api c₀) env _
      (config_path_of_decline _ env d hget hsug ha)
    rw [this, config_bap_api_idem]
  · have hget : Config.get
        (config_bap_api (Config.set cfg none "bap_executable_path" p))
        none "bap_executable_path" = some p := by
      rw [config_bap_api_get_default_section]
      exact Config.get_set_self cfg none "bap_executable_path" p
    have := check_of_config_path
      (config_bap_api (Config.set cfg none "bap_executable_path" p)) env _
      (config_path_of_set _ env p hget)
    rw [this, config_bap_api_idem]

/-- Witness for C9: second pass after a completed declining first pass. -/
theorem C9_witness :
    (check_and_configure_bap (config_bap_api [])
        ⟨.osError, .osError, fun _ => true, [.file none, .yesno true]⟩).2
      = .ok (some (config_bap_api [])) :=
  C9_resolver_idempotent []
    ⟨.osError, .osError, fun _ => true, [.file none, .yesno true]⟩
    (config_bap_api []) rfl

/-- C10: after any completed resolver pass the `enabled` key of section
`bap_api` is set, so the `default='0'` fallback `run_bap_with` supplies
when reading the flag can never be the value actually used. -/
theorem C10_default_never_used (cfg : Config) (env : ResolverIn) (c : Config)
    (hdone : (check_and_configure_bap cfg env).2 = .ok (some c)) :
    ∃ v, Config.get c (some "bap_api") "enabled" = some v ∧
      (Config.get c (some "bap_api") "enabled").getD "0" = v := by
  obtain ⟨c₀, hcp, rfl⟩ := check_and_configure_cases cfg env c hdone
  obtain ⟨v, hv⟩ :=
    Option.isSome_iff_exists.mp (config_bap_api_enabled_isSome c₀)
  exact ⟨v, hv, by rw [hv]; rfl⟩

/-- Witness for C10 after a declining pass over the empty configuration. -/
theorem C10_witness :
    ∃ v, Config.get (config_bap_api []) (some "bap_api") "enabled" = some v ∧
      (Config.get (config_bap_api []) (some "bap_api") "enabled").getD "0"
        = v :=
  C10_default_never_used []
    ⟨.osError, .osError, fun _ => true, [.file none, .yesno true]⟩
    (config_bap_api []) rfl

/-! ### Distinguishing the five command strings -/

lemma str_ne_of_take {s t : String} {n : Nat}
    (h : s.data.take n ≠ t.data.take n) : s ≠ t := by
  intro he
  subst he
  exact h rfl

lemma take9_rm (a : Args) :
    (mk_rm_command a).data.take 9 = "        r".data := by
  rw [mk_rm_command_eq]
  simp only [String.data_append, List.append_assoc]
  rw [List.take_append_of_le_length (by decide)]
  decide

lemma take9_minimal (a : Args) :
    (mk_minimal_command a).data.take 9 = "         ".data := by
  rw [mk_minimal_command_eq]
  simp only [String.data_append, List.append_assoc]
  rw [List.take_append_of_le_length (by decide)]
  decide

lemma take9_full (a : Args) :
    (mk_full_command a).data.take 9 = "         ".data := by
  rw [mk_full_command_eq]
  simp only [String.data_append, List.append_assoc]
  rw [List.take_append_of_le_length (by decide)]
  decide

lemma take13_minimal (a : Args) :
    (mk_minimal_command a).data.take 13 = "            \"".data := by
  rw [mk_minimal_command_eq]
  simp only [String.data_append, List.append_assoc]
  rw [List.take_append_of_le_length (by decide)]
  decide

lemma take13_full (a : Args) :
    (mk_full_command a).data.take 13 = "            \"".data := by
  rw [mk_full_command_eq]
  simp only [String.data_append, List.append_assoc]
  rw [List.take_append_of_le_length (by decide)]
  decide

lemma take13_api_add (a : Args) :
    (mk_api_add_command a).data.take 13 = "             ".data := by
  rw [mk_api_add_command_eq]
  simp only [String.data_append, List.append_assoc]
  rw [List.take_append_of_le_length (by decide)]
  decide

lemma take13_api_remove (a : Args) :
    (mk_api_remove_command a).data.take 13 = "             ".data := by
  rw [mk_api_remove_command_eq]
  simp only [String.data_append, List.append_assoc]
  rw [List.take_append_of_le_length (by decide)]
  decide

lemma take9_api_add (a : Args) :
    (mk_api_add_command a).data.take 9 = "         ".data := by
  rw [mk_api_add_command_eq]
  simp only [String.data_append, List.append_assoc]
  rw [List.take_append_of_le_length (by decide)]
  decide

lemma take9_api_remove (a : Args) :
    (mk_api_remove_command a).data.take 9 = "         ".data := by
  rw [mk_api_remove_command_eq]
  simp only [String.data_append, List.append_assoc]
  rw [List.take_append_of_le_length (by decide)]
  decide

lemma minimal_ne_rm (a b : Args) :
    mk_minimal_command a ≠ mk_rm_command b :=
  str_ne_of_take (n := 9) (by rw [take9_minimal, take9_rm]; decide)

lemma full_ne_rm (a b : Args) :
    mk_full_command a ≠ mk_rm_command b :=
  str_ne_of_take (n := 9) (by rw [take9_full, take9_rm]; decide)

lemma api_add_ne_rm (a b : Args) :
    mk_api_add_command a ≠ mk_rm_command b :=
  str_ne_of_take (n := 9) (by rw [take9_api_add, take9_rm]; decide)

lemma api_remove_ne_rm (a b : Args) :
    mk_api_remove_command a ≠ mk_rm_command b :=
  str_ne_of_take (n := 9) (by rw [take9_api_remove, take9_rm]; decide)

lemma api_add_ne_full (a b : Args) :
    mk_api_add_command a ≠ mk_full_command b :=
  str_ne_of_take (n := 13) (by rw [take13_api_add, take13_full]; decide)

lemma api_remove_ne_full (a b : Args) :
    mk_api_remove_command a ≠ mk_full_command b :=
  str_ne_of_take (n := 13) (by rw [take13_api_remove, take13_full]; decide)

/-! ### The cleanup command references all three temp paths -/

lemma rm_contains_sym (a : Args) :
    strContainsSub (mk_rm_command a) a.symbol_file_location := by
  refine ⟨"        rm -f             \"".data,
    ("\"             \"" ++ a.header_path ++ "\"             \""
      ++ a.bap_output_file ++ "\"         ").data, ?_⟩
  rw [mk_rm_command_eq]
  simp [String.data_append, List.append_assoc]

lemma rm_contains_hdr (a : Args) :
    strContainsSub (mk_rm_command a) a.header_path := by
  refine ⟨("        rm -f             \"" ++ a.symbol_file_location
      ++ "\"             \"").data,
    ("\"             \"" ++ a.bap_output_file ++ "\"         ").data, ?_⟩
  rw [mk_rm_command_eq]
  simp [String.data_append, List.append_assoc]

lemma rm_contains_out (a : Args) :
    strContainsSub (mk_rm_command a) a.bap_output_file := by
  refine ⟨("        rm -f             \"" ++ a.symbol_file_location
      ++ "\"             \"" ++ a.header_path ++ "\"             \"").data,
    "\"         ".data, ?_⟩
  rw [mk_rm_command_eq]
  simp [String.data_append, List.append_assoc]

/-! ### Inversion of a completed run -/

lemma run_ok_cases (cfg : Config) (env : RunEnv) (args : String) (mode : Bool)
    (c : Config) (tr : List Effect)
    (h : run_bap_with cfg env args mode = .ok (some (c, tr))) :
    (tr = [] ∧ Config.get c none "bap_executable_path" = none) ∨
    (∃ exe, Config.get c none "bap_executable_path" = some exe ∧
      tr = orchestrate c env args mode exe) := by
  cases hchk : (check_and_configure_bap cfg env.resolver).2 with
  | error e => simp [run_bap_with, hchk] at h
  | ok o =>
    cases o with
    | none => simp [run_bap_with, hchk] at h
    | some c' =>
      cases hg : Config.get c' none "bap_executable_path" with
      | none =>
        simp [run_bap_with, hchk, hg] at h
        obtain ⟨rfl, rfl⟩ := h
        exact Or.inl ⟨rfl, hg⟩
      | some exe =>
        simp [run_bap_with, hchk, hg] at h
        obtain ⟨rfl, rfl⟩ := h
        exact Or.inr ⟨exe, hg, rfl⟩

/-! ### Claims about the orchestrator trace: C2, C6 -/

/-- C2: every completed run that staged temporary files (nonempty trace,
i.e. the resolver yielded an executable path) issues the cleanup-removal
`idc.Exec` exactly once, and that one command references all three temp
file paths — regardless of minimal mode and of the API-enabled state. -/
theorem C2_cleanup_exactly_once (cfg : Config) (env : RunEnv) (args : String)
    (mode : Bool) (c : Config) (tr : List Effect)
    (hrun : run_bap_with cfg env args mode = .ok (some (c, tr)))
    (hstaged : tr ≠ []) :
    ∃ exe : String,
      Config.get c none "bap_executable_path" = some exe ∧
      tr.count (Effect.exec (mk_rm_command
        ⟨exe, env.out_tmp, env.input_file_path, env.sym_tmp, env.hdr_tmp,
          args⟩)) = 1 ∧
      strContainsSub (mk_rm_command ⟨exe, env.out_tmp, env.input_file_path,
        env.sym_tmp, env.hdr_tmp, args⟩) env.sym_tmp ∧
      strContainsSub (mk_rm_command ⟨exe, env.out_tmp, env.input_file_path,
        env.sym_tmp, env.hdr_tmp, args⟩) env.hdr_tmp ∧
      strContainsSub (mk_rm_command ⟨exe, env.out_tmp, env.input_file_path,
        env.sym_tmp, env.hdr_tmp, args⟩) env.out_tmp := by
  rcases run_ok_cases cfg env args mode c tr hrun with ⟨rfl, -⟩ | ⟨exe, hexe, rfl⟩
  · exact absurd rfl hstaged
  · refine ⟨exe, hexe, ?_,
      rm_contains_sym ⟨exe, env.out_tmp, env.input_file_path, env.sym_tmp,
        env.hdr_tmp, args⟩,
      rm_contains_hdr ⟨exe, env.out_tmp, env.input_file_path, env.sym_tmp,
        env.hdr_tmp, args⟩,
      rm_contains_out ⟨exe, env.out_tmp, env.input_file_path, env.sym_tmp,
        env.hdr_tmp, args⟩⟩
    have h1 := minimal_ne_rm
      ⟨exe, env.out_tmp, env.input_file_path, env.sym_tmp, env.hdr_tmp, args⟩
      ⟨exe, env.out_tmp, env.input_file_path, env.sym_tmp, env.hdr_tmp, args⟩
    have h2 := full_ne_rm
      ⟨exe, env.out_tmp, env.input_file_path, env.sym_tmp, env.hdr_tmp, args⟩
      ⟨exe, env.out_tmp, env.input_file_path, env.sym_tmp, env.hdr_tmp, args⟩
    have h3 := api_add_ne_rm
      ⟨exe, env.out_tmp, env.input_file_path, env.sym_tmp, env.hdr_tmp, args⟩
      ⟨exe, env.out_tmp, env.input_file_path, env.sym_tmp, env.hdr_tmp, args⟩
    have h4 := api_remove_ne_rm
      ⟨exe, env.out_tmp, env.input_file_path, env.sym_tmp, env.hdr_tmp, args⟩
      ⟨exe, env.out_tmp, env.input_file_path, env.sym_tmp, env.hdr_tmp, args⟩
    cases mode with
    | true =>
      cases hv : env.view_exists <;>
        (simp only [orchestrate, hv]
         simp [List.count_append, List.count_cons, h1, h2, h3, h4])
    | false =>
      cases he : ["1", "true", "yes"].contains
          (pylower ((Config.get c (some "bap_api") "enabled").getD "0")) <;>
        cases hv : env.view_exists <;>
          (simp only [orchestrate, he, hv]
           simp [List.count_append, List.count_cons, h1, h2, h3, h4])

/-- Witness for C2: a completed minimal-mode run. -/
theorem C2_witness :
    ∃ exe : String,
      Config.get [((some "bap_api", "enabled"), "1"),
          ((none, "bap_executable_path"), "/usr/bin/bap")]
        none "bap_executable_path" = some exe ∧
      (orchestrate [((some "bap_api", "enabled"), "1"),
          ((none, "bap_executable_path"), "/usr/bin/bap")]
        ⟨⟨.osError, .osError, fun _ => true, [.file (some "/usr/bin/bap")]⟩,
          "/bin/ls", "/tmp/ida-bap-1.out", "/tmp/ida-bap-2.sym",
          "/tmp/ida-bap-3.h", "", false⟩
        "-analyze" true "/usr/bin/bap").count
        (Effect.exec (mk_rm_command
          ⟨exe, "/tmp/ida-bap-1.out", "/bin/ls", "/tmp/ida-bap-2.sym",
            "/tmp/ida-bap-3.h", "-analyze"⟩)) = 1 ∧
      strContainsSub (mk_rm_command ⟨exe, "/tmp/ida-bap-1.out", "/bin/ls",
        "/tmp/ida-bap-2.sym", "/tmp/ida-bap-3.h", "-analyze"⟩)
        "/tmp/ida-bap-2.sym" ∧
      strContainsSub (mk_rm_command ⟨exe, "/tmp/ida-bap-1.out", "/bin/ls",
        "/tmp/ida-bap-2.sym", "/tmp/ida-bap-3.h", "-analyze"⟩)
        "/tmp/ida-bap-3.h" ∧
      strContainsSub (mk_rm_command ⟨exe, "/tmp/ida-bap-1.out", "/bin/ls",
        "/tmp/ida-bap-2.sym", "/tmp/ida-bap-3.h", "-analyze"⟩)
        "/tmp/ida-bap-1.out" :=
  C2_cleanup_exactly_once []
    ⟨⟨.osError, .osError, fun _ => true, [.file (some "/usr/bin/bap")]⟩,
      "/bin/ls", "/tmp/ida-bap-1.out", "/tmp/ida-bap-2.sym",
      "/tmp/ida-bap-3.h", "", false⟩
    "-analyze" true
    [((some "bap_api", "enabled"), "1"),
      ((none, "bap_executable_path"), "/usr/bin/bap")]
    (orchestrate [((some "bap_api", "enabled"), "1"),
        ((none, "bap_executable_path"), "/usr/bin/bap")]
      ⟨⟨.osError, .osError, fun _ => true, [.file (some "/usr/bin/bap")]⟩,
        "/bin/ls", "/tmp/ida-bap-1.out", "/tmp/ida-bap-2.sym",
        "/tmp/ida-bap-3.h", "", false⟩
      "-analyze" true "/usr/bin/bap")
    rfl (by decide)

/-- C6: in a completed full-mode run with the API flag disabled, neither
the `--api-add` nor the `--api-remove` side invocation occurs in the
trace, while the cleanup removal does occur and its command still
references the header temp path. -/
theorem C6_api_disabled_header_untouched (cfg : Config) (env : RunEnv)
    (args : String) (c : Config) (tr : List Effect) (exe : String)
    (hrun : run_bap_with cfg env args false = .ok (some (c, tr)))
    (hexe : Config.get c none "bap_executable_path" = some exe)
    (hdis : ["1", "true", "yes"].contains
      (pylower ((Config.get c (some "bap_api") "enabled").getD "0"))
      = false) :
    Effect.exec (mk_api_add_command ⟨exe, env.out_tmp, env.input_file_path,
      env.sym_tmp, env.hdr_tmp, args⟩) ∉ tr ∧
    Effect.exec (mk_api_remove_command ⟨exe, env.out_tmp,
      env.input_file_path, env.sym_tmp, env.hdr_tmp, args⟩) ∉ tr ∧
    Effect.exec (mk_rm_command ⟨exe, env.out_tmp, env.input_file_path,
      env.sym_tmp, env.hdr_tmp, args⟩) ∈ tr ∧
    strContainsSub (mk_rm_command ⟨exe, env.out_tmp, env.input_file_path,
      env.sym_tmp, env.hdr_tmp, args⟩) env.hdr_tmp := by
  rcases run_ok_cases cfg env args false c tr hrun with
    ⟨rfl, hnone⟩ | ⟨exe', hexe', rfl⟩
  · rw [hnone] at hexe; cases hexe
  · have hee : exe' = exe := by
      rw [hexe'] at hexe; exact Option.some.inj hexe
    subst hee
    have h1 := api_add_ne_full
      ⟨exe', env.out_tmp, env.input_file_path, env.sym_tmp, env.hdr_tmp, args⟩
      ⟨exe', env.out_tmp, env.input_file_path, env.sym_tmp, env.hdr_tmp, args⟩
    have h2 := api_add_ne_rm
      ⟨exe', env.out_tmp, env.input_file_path, env.sym_tmp, env.hdr_tmp, args⟩
      ⟨exe', env.out_tmp, env.input_file_path, env.sym_tmp, env.hdr_tmp, args⟩
    have h3 := api_remove_ne_full
      ⟨exe', env.out_tmp, env.input_file_path, env.sym_tmp, env.hdr_tmp, args⟩
      ⟨exe', env.out_tmp, env.input_file_path, env.sym_tmp, env.hdr_tmp, args⟩
    have h4 := api_remove_ne_rm
      ⟨exe', env.out_tmp, env.input_file_path, env.sym_tmp, env.hdr_tmp, args⟩
      ⟨exe', env.out_tmp, env.input_file_path, env.sym_tmp, env.hdr_tmp, args⟩
    refine ⟨?_, ?_, ?_, rm_contains_hdr
      ⟨exe', env.out_tmp, env.input_file_path, env.sym_tmp, env.hdr_tmp,
        args⟩⟩
    all_goals
      cases hv : env.view_exists <;>
        (simp only [orchestrate, hdis, hv]
         simp [h1, h2, h3, h4])

/-- Witness for C6: a completed full-mode run against a configuration in
which the `bap_api` flag is `"0"`. -/
theorem C6_witness :
    Effect.exec (mk_api_add_command ⟨"/usr/bin/bap", "/tmp/ida-bap-1.out",
      "/bin/ls", "/tmp/ida-bap-2.sym", "/tmp/ida-bap-3.h", "-analyze"⟩)
      ∉ orchestrate
        [((none, "bap_executable_path"), "/usr/bin/bap"),
          ((some "bap_api", "enabled"), "0")]
        ⟨⟨.osError, .osError, fun _ => true, [.file (some "/usr/bin/bap")]⟩,
          "/bin/ls", "/tmp/ida-bap-1.out", "/tmp/ida-bap-2.sym",
          "/tmp/ida-bap-3.h", "", false⟩
        "-analyze" false "/usr/bin/bap" ∧
    Effect.exec (mk_api_remove_command ⟨"/usr/bin/bap", "/tmp/ida-bap-1.out",
      "/bin/ls", "/tmp/ida-bap-2.sym", "/tmp/ida-bap-3.h", "-analyze"⟩)
      ∉ orchestrate
        [((none, "bap_executable_path"), "/usr/bin/bap"),
          ((some "bap_api", "enabled"), "0")]
        ⟨⟨.osError, .osError, fun _ => true, [.file (some "/usr/bin/bap")]⟩,
          "/bin/ls", "/tmp/ida-bap-1.out", "/tmp/ida-bap-2.sym",
          "/tmp/ida-bap-3.h", "", false⟩
        "-analyze" false "/usr/bin/bap" ∧
    Effect.exec (mk_rm_command ⟨"/usr/bin/bap", "/tmp/ida-bap-1.out",
      "/bin/ls", "/tmp/ida-bap-2.sym", "/tmp/ida-bap-3.h", "-analyze"⟩)
      ∈ orchestrate
        [((none, "bap_executable_path"), "/usr/bin/bap"),
          ((some "bap_api", "enabled"), "0")]
        ⟨⟨.osError, .osError, fun _ => true, [.file (some "/usr/bin/bap")]⟩,
          "/bin/ls", "/tmp/ida-bap-1.out", "/tmp/ida-bap-2.sym",
          "/tmp/ida-bap-3.h", "", false⟩
        "-analyze" false "/usr/bin/bap" ∧
    strContainsSub (mk_rm_command ⟨"/usr/bin/bap", "/tmp/ida-bap-1.out",
      "/bin/ls", "/tmp/ida-bap-2.sym", "/tmp/ida-bap-3.h", "-analyze"⟩)
      "/tmp/ida-bap-3.h" :=
  C6_api_disabled_header_untouched [((some "bap_api", "enabled"), "0")]
    ⟨⟨.osError, .osError, fun _ => true, [.file (some "/usr/bin/bap")]⟩,
      "/bin/ls", "/tmp/ida-bap-1.out", "/tmp/ida-bap-2.sym",
      "/tmp/ida-bap-3.h", "", false⟩
    "-analyze"
    [((none, "bap_executable_path"), "/usr/bin/bap"),
      ((some "bap_api", "enabled"), "0")]
    (orchestrate
      [((none, "bap_executable_path"), "/usr/bin/bap"),
        ((some "bap_api", "enabled"), "0")]
      ⟨⟨.osError, .osError, fun _ => true, [.file (some "/usr/bin/bap")]⟩,
        "/bin/ls", "/tmp/ida-bap-1.out", "/tmp/ida-bap-2.sym",
        "/tmp/ida-bap-3.h", "", false⟩
      "-analyze" false "/usr/bin/bap")
    "/usr/bin/bap" (by rfl) rfl (by decide)

end BapIda
